import Mathlib

/-!
Verification development for a Docker-registry reverse proxy (`src/app.js`,
an Express application).  The proxy routes requests to an upstream registry
by hostname, relays the Registry V2 bearer-token handshake, normalizes
implicit `library/` namespaces for the default registry, and forwards all
other requests.

The definitions below are a shallow embedding of `app.js`.  Strings are
Lean `String`s; JavaScript string operations (`split`, `includes`, `join`,
lower-casing) are re-implemented over `List Char` so that every definition
evaluates inside the kernel.  Header maps are total functions
`String → Option String` (Node lower-cases incoming request-header names,
so client header keys are the lower-cased names).  Network effects are
captured by an oracle `FetchReq → FetchResp` passed to the handler; the
handler returns the client-facing response together with the list of
upstream requests it issued, in order.
-/

namespace DockerProxy

/-! ## JavaScript string primitives -/

/-- JS `s.split(sep)` for a one-character separator, over char lists:
splits at every occurrence, keeping empty pieces. -/
def splitOnChar (sep : Char) : List Char → List (List Char)
  | [] => [[]]
  | c :: rest =>
    let r := splitOnChar sep rest
    if c = sep then [] :: r
    else
      match r with
      | h :: t => (c :: h) :: t
      | [] => [[c]]

/-- JS `s.split(sep)` (single-character separator). -/
def jsSplit (s : String) (sep : Char) : List String :=
  (splitOnChar sep s.data).map String.mk

/-- JS `Array.prototype.join(sep)` for string arrays. -/
def joinWith (sep : Char) : List String → String
  | [] => ""
  | [x] => x
  | x :: y :: xs => x ++ String.mk [sep] ++ joinWith sep (y :: xs)

/-- JS `s.includes(c)` for a single character. -/
def containsChar (s : String) (c : Char) : Bool :=
  s.data.any (fun d => d == c)

/-- ASCII lower-casing, as applied by the fetch `Headers` machinery. -/
def lowerAscii (s : String) : String :=
  String.mk (s.data.map Char.toLower)

/-- JS truthiness for an optional string: `null`/`undefined` and `""` are
falsy.  Used wherever `app.js` guards on `if (stringValue)`. -/
def truthy : Option String → Option String
  | some s => if s = "" then none else some s
  | none => none

/-! ## Configuration and route table (`app.js` lines 36-55) -/

structure Config where
  customDomain : String
  mode : String
  targetUpstream : String

def dockerHub : String := "https://registry-1.docker.io"

/-- The virtual-host stems of the route-table object literal; each key of
the literal is a stem concatenated with `CUSTOM_DOMAIN`. -/
def routeStems : List (String × String) :=
  [ ("docker.", dockerHub)
  , ("quay.", "https://quay.io")
  , ("gcr.", "https://gcr.io")
  , ("k8s-gcr.", "https://k8s.gcr.io")
  , ("k8s.", "https://registry.k8s.io")
  , ("ghcr.", "https://ghcr.io")
  , ("cloudsmith.", "https://docker.cloudsmith.io")
  , ("ecr.", "https://public.ecr.aws")
  , ("docker-staging.", dockerHub) ]

/-- The `routes` object of `app.js`, as an association list in literal
order. -/
def routes (cfg : Config) : List (String × String) :=
  routeStems.map (fun e => (e.1 ++ cfg.customDomain, e.2))

/-- `routeByHosts` (`app.js` lines 58-67): object lookup with JS
truthiness, then the debug-mode fallback, else the empty string. -/
def routeByHosts (cfg : Config) (host : String) : String :=
  let v := ((routes cfg).lookup host).getD ""
  if v ≠ "" then v
  else if cfg.mode = "debug" then cfg.targetUpstream
  else ""

/-! ## URL pieces -/

/-- `url.hostname` for a `host` that may carry a port: strip a trailing
`:port` (an IPv6 literal in brackets keeps its brackets). -/
def hostnameOfHost (h : String) : String :=
  match h.data with
  | '[' :: _ => String.mk (h.data.takeWhile (fun c => c != ']') ++ [']'])
  | _ => String.mk (h.data.takeWhile (fun c => c != ':'))

/-- Everything after the first `://` of a URL string. -/
def afterSchemeSep : List Char → List Char
  | ':' :: '/' :: '/' :: rest => rest
  | _ :: rest => afterSchemeSep rest
  | [] => []

/-- `new URL(u).host` for the `scheme://host[/...]` base-URL strings used
by the route table (no user-info, already lower-case, no default port). -/
def urlHost (u : String) : String :=
  String.mk ((afterSchemeSep u.data).takeWhile (fun c => !(c == '/' || c == '?' || c == '#')))

def schemeRestOk : List Char → Bool
  | [] => false
  | c :: cs =>
    if c = ':' then true
    else if c.isAlphanum || c == '+' || c == '-' || c == '.' then schemeRestOk cs
    else false

/-- Approximation of `new URL(s)` succeeding: `s` starts with a scheme
(`ALPHA *( ALPHA / DIGIT / "+" / "-" / "." ) ":"`).  `app.js` reaches
`new URL(realm)` inside `fetchToken`; a throwing parse is caught by the
error middleware. -/
def urlParseOk (s : String) : Bool :=
  match s.data with
  | [] => false
  | c :: cs => c.isAlpha && schemeRestOk cs

/-! ## Challenge parsing (`app.js` lines 70-82)

The source matches the global regex `(?<=\=")(?:\\.|[^"\\])*(?=")` against
the WWW-Authenticate header value.  The starred body is deterministic
(no backtracking can change it), so a match attempt at a position is:
check that the two previous characters are an equals sign and a quote,
run the body, and require a `"` right after it.  The global scan advances past each match;
a zero-length match advances one character, exactly as `String.match`
with a `g` regex does. -/

structure Challenge where
  realm : String
  service : String
deriving DecidableEq

/-- A JS regex `.` (no `s` flag) matches anything but a line terminator. -/
def isLineTerm (c : Char) : Bool :=
  c == '\n' || c == '\r' || c == '\u2028' || c == '\u2029'

/-- Greedy run of `(?:\\.|[^"\\])*`: returns the consumed characters and
the rest of the input. -/
def scanBody : List Char → List Char × List Char
  | [] => ([], [])
  | ['\\'] => ([], ['\\'])
  | '\\' :: d :: rest =>
    if isLineTerm d then ([], '\\' :: d :: rest)
    else
      let p := scanBody rest
      ('\\' :: d :: p.1, p.2)
  | c :: rest =>
    if c = '"' then ([], c :: rest)
    else
      let p := scanBody rest
      (c :: p.1, p.2)

/-- The two characters sitting immediately before the position reached
after consuming `m`, given the two characters `a b` before `m`. -/
def lastTwo (a b : Char) (m : List Char) : Char × Char :=
  match m.reverse with
  | [] => (a, b)
  | [x] => (b, x)
  | x :: y :: _ => (y, x)

/-- Fuelled global scan of the challenge regex.  `a b` are the two
characters before the current position (`\x00` sentinels at the start);
the fuel strictly exceeds the input length, and every step consumes at
least one character, so it never runs out on `jsMatches`. -/
def jsScan : Nat → Char → Char → List Char → List String
  | 0, _, _, _ => []
  | _ + 1, _, _, [] => []
  | fuel + 1, a, b, c :: rest =>
    if a = '=' ∧ b = '"' then
      let p := scanBody (c :: rest)
      if p.2.head? = some '"' then
        if p.1 = [] then
          "" :: jsScan fuel b c rest
        else
          String.mk p.1 :: jsScan fuel (lastTwo a b p.1).1 (lastTwo a b p.1).2 p.2
      else jsScan fuel b c rest
    else jsScan fuel b c rest

/-- `authenticateStr.match(re)` for the challenge regex, all matches in
order. -/
def jsMatches (s : String) : List String :=
  jsScan (s.data.length + 1) '\x00' '\x00' s.data

/-- `parseAuthenticate` (`app.js` lines 70-82): fewer than two matches
throws (modelled as `none`); otherwise the first match is the realm and
the second the service. -/
def parseAuthenticate (s : String) : Option Challenge :=
  match jsMatches s with
  | m0 :: m1 :: _ => some (Challenge.mk m0 m1)
  | _ => none

/-- Written from the specification text, for comparison: "the first two
double-quoted values appearing in the header text, in order" — the
substrings enclosed by successive pairs of `"` characters. -/
def quotedValuesAux : Nat → List Char → List String
  | 0, _ => []
  | _, [] => []
  | fuel + 1, c :: rest =>
    if c = '"' then
      match rest.dropWhile (fun d => d != '"') with
      | _ :: r2 => String.mk (rest.takeWhile (fun d => d != '"')) :: quotedValuesAux fuel r2
      | [] => []
    else quotedValuesAux fuel rest

def quotedValues (s : String) : List String :=
  quotedValuesAux (s.data.length + 1) s.data

/-! ## Scope rewriting (`app.js` lines 200-208) -/

/-- The dockerHub `library/` scope completion: applied only when the
scope is truthy and the upstream is the default registry, the scope has
exactly three `:`-separated parts, and the middle part has no `/`. -/
def rewriteScope (isDockerHub : Bool) (scope : Option String) : Option String :=
  match scope with
  | none => none
  | some s =>
    if s ≠ "" ∧ isDockerHub = true then
      match jsSplit s ':' with
      | [a, b, c] =>
        if containsChar b '/' = false then
          some (joinWith ':' [a, "library/" ++ b, c])
        else some s
      | _ => some s
    else some s

/-! ## Requests, header maps, upstream fetches -/

/-- The per-request data `app.js` reads: the `Host` header (also the
source of Express's `req.hostname` and of `url.host`/`url.hostname`),
the method, the parsed `url.pathname` and `url.search`, the decoded
`scope` query parameter (`url.searchParams.get`), and the header map
with Node's lower-cased names. -/
structure Request where
  host : String
  method : String
  pathname : String
  search : String
  scope : Option String
  headers : String → Option String

def emptyHeaders : String → Option String := fun _ => none

/-- `headers[k] = v` on a JS object modelled as a map. -/
def setHeader (h : String → Option String) (k v : String) : String → Option String :=
  fun q => if q = k then some v else h q

/-- `delete headers[k]`. -/
def deleteHeader (h : String → Option String) (k : String) : String → Option String :=
  fun q => if q = k then none else h q

/-- `const headers = {}; if (authorization) headers['Authorization'] = authorization`. -/
def authOnlyHeaders (auth : Option String) : String → Option String :=
  fun q => if q = "Authorization" then truthy auth else none

/-- One call to `fetch`: the URL string passed in, the query parameters
layered on top of it via `url.searchParams.set` (only the token request
sets any), the method, the outgoing headers, and whether a body is
attached. -/
structure FetchReq where
  url : String
  setParams : List (String × String)
  method : String
  headers : String → Option String
  hasBody : Bool

/-- An upstream response: status, headers, opaque body. -/
structure FetchResp where
  status : Nat
  headers : List (String × String)
  body : String

/-- `resp.headers.get(name)`: case-insensitive header lookup. -/
def headerGet (hs : List (String × String)) (nm : String) : Option String :=
  (hs.find? (fun p => lowerAscii p.1 == lowerAscii nm)).map Prod.snd

/-- The `/v2/` probe request (`app.js` lines 152-163): forwards the
client's Authorization header when truthy. -/
def probeRequest (upstream : String) (auth : Option String) : FetchReq :=
  { url := upstream ++ "/v2/"
  , setParams := []
  , method := "GET"
  , headers := authOnlyHeaders auth
  , hasBody := false }

/-- The `/v2/auth` discovery probe (`app.js` lines 176-181): no headers
at all. -/
def authProbeRequest (upstream : String) : FetchReq :=
  { url := upstream ++ "/v2/"
  , setParams := []
  , method := "GET"
  , headers := emptyHeaders
  , hasBody := false }

/-- `fetchToken` (`app.js` lines 85-98): GET on the challenge realm with
`service` (if non-empty) and `scope` (if truthy) set, forwarding the
client's Authorization header when truthy. -/
def tokenRequest (ch : Challenge) (scope auth : Option String) : FetchReq :=
  { url := ch.realm
  , setParams :=
      (if ch.service ≠ "" then [("service", ch.service)] else []) ++
      (match truthy scope with
       | some s => [("scope", s)]
       | none => [])
  , method := "GET"
  , headers := authOnlyHeaders auth
  , hasBody := false }

/-- The generic forward request (`app.js` lines 232-250): upstream base
plus path and query, all client headers with `host` overwritten and
`accept-encoding` deleted, a body for non-GET/HEAD methods. -/
def forwardRequest (upstream : String) (req : Request) : FetchReq :=
  { url := upstream ++ req.pathname ++ req.search
  , setParams := []
  , method := req.method
  , headers := deleteHeader (setHeader req.headers "host" (urlHost upstream)) "accept-encoding"
  , hasBody := !(req.method == "GET" || req.method == "HEAD") }

/-! ## Responses -/

inductive Body where
  | jsonRoutes (rs : List (String × String))
  | jsonMessage (msg : String)
  | relay (payload : String)
  | text (msg : String)
  | empty
deriving DecidableEq

structure HttpResponse where
  status : Nat
  headers : List (String × String)
  body : Body
deriving DecidableEq

/-- `streamResponse` (`app.js` lines 113-129): copy status and headers,
relay the body. -/
def relayResponse (resp : FetchResp) : HttpResponse :=
  { status := resp.status, headers := resp.headers, body := Body.relay resp.body }

/-- The WWW-Authenticate value built by `responseUnauthorized` (`app.js`
lines 101-110): `http://` plus `url.host` in debug mode, `https://` plus
`url.hostname` otherwise. -/
def wwwAuthHeaderValue (cfg : Config) (host : String) : String :=
  if cfg.mode = "debug" then
    "Bearer realm=\"http://" ++ host ++ "/v2/auth\",service=\"docker-repository-proxy\""
  else
    "Bearer realm=\"https://" ++ hostnameOfHost host ++ "/v2/auth\",service=\"docker-repository-proxy\""

def responseUnauthorized (cfg : Config) (host : String) : HttpResponse :=
  { status := 401
  , headers := [("WWW-Authenticate", wwwAuthHeaderValue cfg host)]
  , body := Body.jsonMessage "UNAUTHORIZED" }

/-- The error middleware (`app.js` lines 268-271). -/
def internalServerError : HttpResponse :=
  { status := 500, headers := [], body := Body.text "Internal Server Error" }

/-- The `library/` 301 redirect (`app.js` lines 218-227): splice
`library` at index 2 of the `/`-split path and redirect to the rebuilt
absolute URL (the client URL was parsed against an `http://` base). -/
def redirectResponse (req : Request) : HttpResponse :=
  let parts := jsSplit req.pathname '/'
  let newPath := joinWith '/' (parts.take 2 ++ ["library"] ++ parts.drop 2)
  { status := 301
  , headers := [("location", "http://" ++ req.host ++ newPath ++ req.search)]
  , body := Body.empty }

/-- Written from the specification text, for comparison: the
Unauthorized Response header with `<proxy-host>` as given. -/
def specUnauthorizedHeader (scheme host : String) : String :=
  "Bearer realm=\"" ++ scheme ++ "://" ++ host ++ "/v2/auth\",service=\"docker-repository-proxy\""

/-! ## The handler pipeline (`app.js` lines 136-265) -/

/-- The `/v2/` probe branch. -/
def probeStage (cfg : Config) (upstream : String) (req : Request)
    (fetch : FetchReq → FetchResp) : HttpResponse × List FetchReq :=
  let preq := probeRequest upstream (req.headers "authorization")
  let resp := fetch preq
  if resp.status = 401 then (responseUnauthorized cfg req.host, [preq])
  else (relayResponse resp, [preq])

/-- The `/v2/auth` token-exchange branch. -/
def authStage (cfg : Config) (upstream : String) (req : Request)
    (fetch : FetchReq → FetchResp) : HttpResponse × List FetchReq :=
  let preq := authProbeRequest upstream
  let resp := fetch preq
  if resp.status ≠ 401 then (relayResponse resp, [preq])
  else
    match headerGet resp.headers "WWW-Authenticate" with
    | none => (relayResponse resp, [preq])
    | some astr =>
      match parseAuthenticate astr with
      | none => (internalServerError, [preq])
      | some ch =>
        if urlParseOk ch.realm then
          let treq := tokenRequest ch (rewriteScope (upstream == dockerHub) req.scope)
            (req.headers "authorization")
          (relayResponse (fetch treq), [preq, treq])
        else (internalServerError, [preq])

/-- The catch-all forwarder branch. -/
def forwardStage (cfg : Config) (upstream : String) (req : Request)
    (fetch : FetchReq → FetchResp) : HttpResponse × List FetchReq :=
  let freq := forwardRequest upstream req
  let resp := fetch freq
  if resp.status = 401 then (responseUnauthorized cfg req.host, [freq])
  else (relayResponse resp, [freq])

/-- The whole middleware, dispatching exactly as `app.js` does. -/
def handle (cfg : Config) (req : Request) (fetch : FetchReq → FetchResp) :
    HttpResponse × List FetchReq :=
  let upstream := routeByHosts cfg (hostnameOfHost req.host)
  if upstream = "" then
    ({ status := 404, headers := [], body := Body.jsonRoutes (routes cfg) }, [])
  else if req.pathname = "/v2/" then probeStage cfg upstream req fetch
  else if req.pathname = "/v2/auth" then authStage cfg upstream req fetch
  else if upstream = dockerHub ∧ (jsSplit req.pathname '/').length = 5 then
    (redirectResponse req, [])
  else forwardStage cfg upstream req fetch

/-! ## Test fixtures -/

def cfgProd : Config :=
  { customDomain := "example.com", mode := "production", targetUpstream := "" }

def fOk : FetchReq → FetchResp :=
  fun _ => { status := 200, headers := [("content-type", "application/octet-stream")], body := "payload" }

def f401 : FetchReq → FetchResp :=
  fun _ => { status := 401, headers := [], body := "" }

def reqAuthPlain : Request :=
  { host := "docker.example.com", method := "GET", pathname := "/v2/auth", search := ""
  , scope := none, headers := emptyHeaders }

def fBadChallenge : FetchReq → FetchResp :=
  fun _ => { status := 401, headers := [("WWW-Authenticate", "Bearer xyz")], body := "" }

def fMixedQuotes : FetchReq → FetchResp :=
  fun _ => { status := 401, headers := [("WWW-Authenticate", "Bearer \"a\" realm=\"b\"")], body := "" }

def reqUnknown : Request :=
  { host := "unknown.example.com", method := "GET", pathname := "/v2/", search := ""
  , scope := none, headers := emptyHeaders }

def reqManifest : Request :=
  { host := "docker.example.com", method := "GET"
  , pathname := "/v2/busybox/manifests/latest", search := "?x=1"
  , scope := none, headers := emptyHeaders }

def reqManifestQualified : Request :=
  { host := "docker.example.com", method := "GET"
  , pathname := "/v2/library/busybox/manifests/latest", search := ""
  , scope := none, headers := emptyHeaders }

def reqManifestQuay : Request :=
  { host := "quay.example.com", method := "GET"
  , pathname := "/v2/busybox/manifests/latest", search := ""
  , scope := none, headers := emptyHeaders }

def reqFwd : Request :=
  { host := "docker.example.com", method := "GET"
  , pathname := "/v2/library/busybox/blobs/sha256-aa", search := ""
  , scope := none
  , headers := fun k =>
      if k = "authorization" then some "Basic c2VjcmV0"
      else if k = "user-agent" then some "docker/25.0"
      else if k = "accept-encoding" then some "gzip"
      else if k = "host" then some "docker.example.com"
      else none }

def reqProbe : Request :=
  { host := "docker.example.com", method := "GET", pathname := "/v2/", search := ""
  , scope := none
  , headers := fun k => if k = "authorization" then some "Basic c2VjcmV0" else none }

def fAuthTok : FetchReq → FetchResp :=
  fun fr =>
    if fr.url = "https://registry-1.docker.io/v2/" then
      { status := 401
      , headers := [("Www-Authenticate",
          "Bearer realm=\"https://auth.docker.io/token\",service=\"registry.docker.io\"")]
      , body := "" }
    else
      { status := 200, headers := [("content-type", "application/json")], body := "token-payload" }

def reqAuthTok : Request :=
  { host := "docker.example.com", method := "GET", pathname := "/v2/auth"
  , search := "?scope=repository:busybox:pull"
  , scope := some "repository:busybox:pull", headers := emptyHeaders }

def reqPort : Request :=
  { host := "docker.example.com:8080", method := "GET", pathname := "/v2/", search := ""
  , scope := none, headers := emptyHeaders }

/-! ## Helper lemmas -/

theorem stringAppend_cancel_right {a b d : String} (h : a ++ d = b ++ d) : a = b := by
  apply String.ext
  have hd := congrArg String.data h
  simp only [String.data_append] at hd
  exact List.append_cancel_right hd

theorem stringAppend_beq_false {p q : String} (h : p ≠ q) (d : String) :
    ((p ++ d) == (q ++ d)) = false := by
  apply beq_eq_false_iff_ne.mpr
  intro he
  exact h (stringAppend_cancel_right he)

theorem lookup_map_append (d : String) :
    ∀ (l : List (String × String)) (p v : String), (p, v) ∈ l → (l.map Prod.fst).Nodup →
      (l.map (fun e => (e.1 ++ d, e.2))).lookup (p ++ d) = some v := by
  intro l
  induction l with
  | nil =>
    intro p v hm _
    simp at hm
  | cons e tl ih =>
    intro p v hm hnd
    rcases List.mem_cons.mp hm with he | ht
    · rw [← he]
      simp [List.lookup]
    · have hpk : p ∈ tl.map Prod.fst := List.mem_map.mpr ⟨(p, v), ht, rfl⟩
      have hnd2 : (e.1 :: tl.map Prod.fst).Nodup := by rw [List.map_cons] at hnd; exact hnd
      have hnd' := List.nodup_cons.mp hnd2
      have hne : p ≠ e.1 := fun hpe => hnd'.1 (hpe ▸ hpk)
      have hbq := stringAppend_beq_false hne d
      simp [List.lookup, hbq]
      exact ih p v ht hnd'.2

theorem lookup_none_of_not_mem_keys :
    ∀ (l : List (String × String)) (a : String), a ∉ l.map Prod.fst → l.lookup a = none := by
  intro l
  induction l with
  | nil => intro a _; rfl
  | cons e tl ih =>
    intro a ha
    have h1 : a ≠ e.1 := by
      intro he
      exact ha (by simp [he])
    have h2 : a ∉ tl.map Prod.fst := by
      intro hm
      exact ha (by simp [hm])
    have hbq : (a == e.1) = false := beq_eq_false_iff_ne.mpr h1
    simp only [List.lookup, hbq]
    exact ih a h2

theorem routeStems_keys_nodup : (routeStems.map Prod.fst).Nodup := by decide

theorem routeStems_values_nonempty : ∀ e ∈ routeStems, e.2 ≠ "" := by decide

theorem routeByHosts_mem (cfg : Config) (h u : String) (hmem : (h, u) ∈ routes cfg) :
    routeByHosts cfg h = u := by
  obtain ⟨⟨p, v⟩, hp, he⟩ := List.mem_map.mp hmem
  injection he with h1 h2
  subst h1
  subst h2
  have hlk : (routes cfg).lookup (p ++ cfg.customDomain) = some v :=
    lookup_map_append cfg.customDomain routeStems p v hp routeStems_keys_nodup
  have hv : v ≠ "" := routeStems_values_nonempty (p, v) hp
  simp [routeByHosts, hlk, hv]

theorem routeByHosts_absent (cfg : Config) (h : String)
    (habs : h ∉ (routes cfg).map Prod.fst) (hm : cfg.mode = "production") :
    routeByHosts cfg h = "" := by
  have hlk : (routes cfg).lookup h = none := lookup_none_of_not_mem_keys _ h habs
  simp [routeByHosts, hlk, hm]

theorem pathname_ne_probe_auth {s : String} {n : Nat}
    (h : (jsSplit s '/').length = n) (h3 : n ≠ 3) : s ≠ "/v2/" ∧ s ≠ "/v2/auth" := by
  constructor
  · intro e
    subst e
    exact h3 (by rw [← h]; rfl)
  · intro e
    subst e
    exact h3 (by rw [← h]; rfl)

theorem forwardStage_snd (cfg : Config) (u : String) (req : Request) (f : FetchReq → FetchResp) :
    (forwardStage cfg u req f).2 = [forwardRequest u req] := by
  by_cases hst : (f (forwardRequest u req)).status = 401 <;> simp [forwardStage, hst]

theorem authStage_snd_head (cfg : Config) (u : String) (req : Request) (f : FetchReq → FetchResp) :
    (authStage cfg u req f).2.head? = some (authProbeRequest u) := by
  by_cases h1 : (f (authProbeRequest u)).status ≠ 401
  · simp [authStage, h1]
  · rcases hget : headerGet (f (authProbeRequest u)).headers "WWW-Authenticate" with _ | astr
    · simp [authStage, h1, hget]
    · rcases hpa : parseAuthenticate astr with _ | ch
      · simp [authStage, h1, hget, hpa]
      · by_cases hok : urlParseOk ch.realm
        · simp [authStage, h1, hget, hpa, hok]
        · simp [authStage, h1, hget, hpa, hok]

theorem handle_eq_probeStage (cfg : Config) (req : Request) (f : FetchReq → FetchResp) (u : String)
    (hu : routeByHosts cfg (hostnameOfHost req.host) = u) (hne : u ≠ "")
    (hp : req.pathname = "/v2/") :
    handle cfg req f = probeStage cfg u req f := by
  simp [handle, hu, hne, hp]

theorem handle_eq_authStage (cfg : Config) (req : Request) (f : FetchReq → FetchResp) (u : String)
    (hu : routeByHosts cfg (hostnameOfHost req.host) = u) (hne : u ≠ "")
    (hp : req.pathname = "/v2/auth") :
    handle cfg req f = authStage cfg u req f := by
  simp [handle, hu, hne, hp]

theorem handle_eq_redirect (cfg : Config) (req : Request) (f : FetchReq → FetchResp)
    (hu : routeByHosts cfg (hostnameOfHost req.host) = dockerHub)
    (hp1 : req.pathname ≠ "/v2/") (hp2 : req.pathname ≠ "/v2/auth")
    (h5 : (jsSplit req.pathname '/').length = 5) :
    handle cfg req f = (redirectResponse req, []) := by
  simp [handle, hu, hp1, hp2, h5, dockerHub]

theorem handle_eq_forwardStage (cfg : Config) (req : Request) (f : FetchReq → FetchResp) (u : String)
    (hu : routeByHosts cfg (hostnameOfHost req.host) = u) (hne : u ≠ "")
    (hp1 : req.pathname ≠ "/v2/") (hp2 : req.pathname ≠ "/v2/auth")
    (hnr : ¬(u = dockerHub ∧ (jsSplit req.pathname '/').length = 5)) :
    handle cfg req f = forwardStage cfg u req f := by
  simp [handle, hu, hne, hp1, hp2, hnr]

/-! ## Claim C6 -/

/-- C6: for every hostname present in the Route Table, resolution
returns exactly the configured upstream base URL (resolution reads only
the hostname, so it cannot depend on the request's path or method); for
a hostname absent from the table in production mode, resolution returns
NONE (the empty string). -/
theorem c6_router_resolve (cfg : Config) :
    (∀ h u, (h, u) ∈ routes cfg → routeByHosts cfg h = u) ∧
    (∀ h, h ∉ (routes cfg).map Prod.fst → cfg.mode = "production" → routeByHosts cfg h = "") :=
  ⟨fun h u hm => routeByHosts_mem cfg h u hm,
   fun h ha hm => routeByHosts_absent cfg h ha hm⟩

theorem c6_router_resolve_witness :
    routeByHosts cfgProd "docker.example.com" = dockerHub ∧
    routeByHosts cfgProd "unknown.example.com" = "" :=
  ⟨(c6_router_resolve cfgProd).1 "docker.example.com" dockerHub (by decide),
   (c6_router_resolve cfgProd).2 "unknown.example.com" (by decide) rfl⟩

/-! ## Claim C7 -/

/-- C7: a request whose hostname is absent from the Route Table, in
production mode, is answered 404 with a JSON body whose routes field is
the full configured route table, and no upstream request is issued. -/
theorem c7_unresolved_404 (cfg : Config) (req : Request) (f : FetchReq → FetchResp)
    (hm : cfg.mode = "production")
    (habs : hostnameOfHost req.host ∉ (routes cfg).map Prod.fst) :
    handle cfg req f =
      ({ status := 404, headers := [], body := Body.jsonRoutes (routes cfg) }, []) := by
  have hup := routeByHosts_absent cfg (hostnameOfHost req.host) habs hm
  simp [handle, hup]

theorem c7_unresolved_404_witness :
    handle cfgProd reqUnknown fOk =
      ({ status := 404, headers := [], body := Body.jsonRoutes (routes cfgProd) }, []) :=
  c7_unresolved_404 cfgProd reqUnknown fOk rfl (by decide)

theorem redirectResponse_eq (req : Request) (parts : List String)
    (hsplit : jsSplit req.pathname '/' = parts) (loc : String)
    (hloc : "http://" ++ req.host ++ joinWith '/' (parts.take 2 ++ ["library"] ++ parts.drop 2) ++ req.search = loc) :
    redirectResponse req = { status := 301, headers := [("location", loc)], body := Body.empty } := by
  simp only [redirectResponse]
  rw [hsplit, hloc]

/-! ## Claim C3 -/

/-- C3: against the default registry, a request whose path splits on `/`
into exactly the five segments of `/v2/<name>/<kind>/<ref>` is answered
with a 301 to the same URL with `library` inserted right after `v2`,
query string preserved; a six-segment path (name already qualified)
falls through untouched to the forwarder; and with a non-default
upstream a five-segment path also falls through to the forwarder. -/
theorem c3_library_redirect (cfg : Config) (req : Request) (f : FetchReq → FetchResp)
    (u : String) (hu : routeByHosts cfg (hostnameOfHost req.host) = u) (hne : u ≠ "") :
    (u = dockerHub → ∀ nm kd rf, jsSplit req.pathname '/' = ["", "v2", nm, kd, rf] →
       handle cfg req f =
         ({ status := 301
          , headers := [("location",
              "http://" ++ req.host ++ "/v2/library/" ++ nm ++ "/" ++ kd ++ "/" ++ rf ++ req.search)]
          , body := Body.empty }, []))
    ∧ (u = dockerHub → ∀ n1 n2 kd rf, jsSplit req.pathname '/' = ["", "v2", n1, n2, kd, rf] →
       handle cfg req f = forwardStage cfg u req f)
    ∧ (u ≠ dockerHub → (jsSplit req.pathname '/').length = 5 →
       handle cfg req f = forwardStage cfg u req f) := by
  refine ⟨?_, ?_, ?_⟩
  · intro hdh nm kd rf hsplit
    subst hdh
    have h5 : (jsSplit req.pathname '/').length = 5 := by rw [hsplit]; rfl
    obtain ⟨hp1, hp2⟩ := pathname_ne_probe_auth h5 (by decide)
    rw [handle_eq_redirect cfg req f hu hp1 hp2 h5]
    rw [redirectResponse_eq req _ hsplit
      ("http://" ++ req.host ++ "/v2/library/" ++ nm ++ "/" ++ kd ++ "/" ++ rf ++ req.search)
      (by apply String.ext; simp [joinWith, String.data_append])]
  · intro hdh n1 n2 kd rf hsplit
    subst hdh
    have h6 : (jsSplit req.pathname '/').length = 6 := by rw [hsplit]; rfl
    obtain ⟨hp1, hp2⟩ := pathname_ne_probe_auth h6 (by decide)
    have hnr : ¬(dockerHub = dockerHub ∧ (jsSplit req.pathname '/').length = 5) := by
      rintro ⟨-, hlen⟩
      exact absurd (h6.symm.trans hlen) (by decide)
    exact handle_eq_forwardStage cfg req f dockerHub hu (by decide) hp1 hp2 hnr
  · intro hnd h5
    obtain ⟨hp1, hp2⟩ := pathname_ne_probe_auth h5 (by decide)
    have hnr : ¬(u = dockerHub ∧ (jsSplit req.pathname '/').length = 5) := by
      rintro ⟨hd, -⟩
      exact hnd hd
    exact handle_eq_forwardStage cfg req f u hu hne hp1 hp2 hnr

theorem c3_library_redirect_witness :
    handle cfgProd reqManifest fOk =
      ({ status := 301
       , headers := [("location", "http://docker.example.com/v2/library/busybox/manifests/latest?x=1")]
       , body := Body.empty }, [])
    ∧ handle cfgProd reqManifestQualified fOk = forwardStage cfgProd dockerHub reqManifestQualified fOk
    ∧ handle cfgProd reqManifestQuay fOk = forwardStage cfgProd "https://quay.io" reqManifestQuay fOk := by
  obtain ⟨h1, h2, h3⟩ := c3_library_redirect cfgProd reqManifest fOk dockerHub (by decide) (by decide)
  obtain ⟨-, h2', -⟩ := c3_library_redirect cfgProd reqManifestQualified fOk dockerHub (by decide) (by decide)
  obtain ⟨-, -, h3'⟩ := c3_library_redirect cfgProd reqManifestQuay fOk "https://quay.io" (by decide) (by decide)
  refine ⟨?_, ?_, ?_⟩
  · exact (h1 rfl "busybox" "manifests" "latest" (by decide)).trans
      (congrArg (fun r => (r, ([] : List FetchReq))) (by decide))
  · exact h2' rfl "library" "busybox" "manifests" "latest" (by decide)
  · exact h3' (by decide) (by decide)

/-! ## Claim C9 -/

/-- C9: with the default registry resolved, the 301 library-insertion
redirect fires for every path with exactly five `/`-separated segments,
whatever they are: the handler checks only the segment count, not a
`/v2` first segment nor the kind segment.  `library` is spliced in at
index 2. -/
theorem c9_redirect_segment_count_only (cfg : Config) (req : Request) (f : FetchReq → FetchResp)
    (hu : routeByHosts cfg (hostnameOfHost req.host) = dockerHub) :
    ∀ s0 s1 s2 s3 s4, jsSplit req.pathname '/' = [s0, s1, s2, s3, s4] →
      handle cfg req f =
        ({ status := 301
         , headers := [("location",
             "http://" ++ req.host ++ s0 ++ "/" ++ s1 ++ "/library/" ++ s2 ++ "/" ++ s3 ++ "/" ++ s4 ++ req.search)]
         , body := Body.empty }, []) := by
  intro s0 s1 s2 s3 s4 hsplit
  have h5 : (jsSplit req.pathname '/').length = 5 := by rw [hsplit]; rfl
  obtain ⟨hp1, hp2⟩ := pathname_ne_probe_auth h5 (by decide)
  rw [handle_eq_redirect cfg req f hu hp1 hp2 h5]
  rw [redirectResponse_eq req _ hsplit
    ("http://" ++ req.host ++ s0 ++ "/" ++ s1 ++ "/library/" ++ s2 ++ "/" ++ s3 ++ "/" ++ s4 ++ req.search)
    (by apply String.ext; simp [joinWith, String.data_append])]

def reqOddPath : Request :=
  { host := "docker.example.com", method := "GET", pathname := "/a/b/c/d", search := ""
  , scope := none, headers := emptyHeaders }

theorem c9_redirect_segment_count_only_witness :
    handle cfgProd reqOddPath fOk =
      ({ status := 301
       , headers := [("location", "http://docker.example.com/a/library/b/c/d")]
       , body := Body.empty }, []) :=
  (c9_redirect_segment_count_only cfgProd reqOddPath fOk (by decide)
    "" "a" "b" "c" "d" (by decide)).trans
    (congrArg (fun r => (r, ([] : List FetchReq))) (by decide))

/-! ## Claim C8 -/

/-- C8: every request handled by the generic forwarder sends upstream
exactly the client's headers, except that `host` is overwritten with the
upstream's host and `accept-encoding` is removed; every other header key
passes through unchanged (header keys are Node's lower-cased names). -/
theorem c8_forward_headers (cfg : Config) (req : Request) (f : FetchReq → FetchResp)
    (u : String) (hu : routeByHosts cfg (hostnameOfHost req.host) = u) (hne : u ≠ "")
    (hp1 : req.pathname ≠ "/v2/") (hp2 : req.pathname ≠ "/v2/auth")
    (hnr : ¬(u = dockerHub ∧ (jsSplit req.pathname '/').length = 5)) :
    (handle cfg req f).2 = [forwardRequest u req]
    ∧ (forwardRequest u req).headers "host" = some (urlHost u)
    ∧ (forwardRequest u req).headers "accept-encoding" = none
    ∧ (∀ k, k ≠ "host" → k ≠ "accept-encoding" →
        (forwardRequest u req).headers k = req.headers k) := by
  refine ⟨?_, ?_, ?_, ?_⟩
  · rw [handle_eq_forwardStage cfg req f u hu hne hp1 hp2 hnr]
    exact forwardStage_snd cfg u req f
  · simp [forwardRequest, deleteHeader, setHeader]
  · simp [forwardRequest, deleteHeader]
  · intro k hk1 hk2
    simp [forwardRequest, deleteHeader, setHeader, hk1, hk2]

theorem c8_forward_headers_witness :
    (handle cfgProd reqFwd fOk).2 = [forwardRequest dockerHub reqFwd]
    ∧ (forwardRequest dockerHub reqFwd).headers "host" = some "registry-1.docker.io"
    ∧ (forwardRequest dockerHub reqFwd).headers "accept-encoding" = none
    ∧ (forwardRequest dockerHub reqFwd).headers "user-agent" = some "docker/25.0" := by
  obtain ⟨h1, h2, h3, h4⟩ := c8_forward_headers cfgProd reqFwd fOk dockerHub
    (by decide) (by decide) (by decide) (by decide) (by decide)
  exact ⟨h1, h2.trans (by decide), h3,
    (h4 "user-agent" (by decide) (by decide)).trans (by decide)⟩

/-! ## Claim C1 -/

/-- C1 (amended): an upstream 401 at the probe stage (GET /v2/) or at
the generic forward stage makes the proxy answer with its own 401 whose
WWW-Authenticate realm points at the proxy's own host followed by
/v2/auth (never the upstream's realm); at the token-exchange stage an
upstream probe 401 instead triggers challenge parsing and a token
fetch, whose response is relayed. -/
theorem c1_upstream401_probe_forward (cfg : Config) (req : Request) (f : FetchReq → FetchResp)
    (u : String) (hu : routeByHosts cfg (hostnameOfHost req.host) = u) (hne : u ≠ "") :
    (req.pathname = "/v2/" →
       (f (probeRequest u (req.headers "authorization"))).status = 401 →
       handle cfg req f =
         (responseUnauthorized cfg req.host, [probeRequest u (req.headers "authorization")]))
    ∧ (req.pathname ≠ "/v2/" → req.pathname ≠ "/v2/auth" →
       ¬(u = dockerHub ∧ (jsSplit req.pathname '/').length = 5) →
       (f (forwardRequest u req)).status = 401 →
       handle cfg req f = (responseUnauthorized cfg req.host, [forwardRequest u req])) := by
  constructor
  · intro hp hst
    rw [handle_eq_probeStage cfg req f u hu hne hp]
    simp [probeStage, hst]
  · intro hp1 hp2 hnr hst
    rw [handle_eq_forwardStage cfg req f u hu hne hp1 hp2 hnr]
    simp [forwardStage, hst]

theorem c1_upstream401_probe_forward_witness :
    handle cfgProd reqProbe f401 =
      (responseUnauthorized cfgProd "docker.example.com",
       [probeRequest dockerHub (reqProbe.headers "authorization")])
    ∧ handle cfgProd reqFwd f401 =
      (responseUnauthorized cfgProd "docker.example.com", [forwardRequest dockerHub reqFwd]) := by
  obtain ⟨h1, -⟩ := c1_upstream401_probe_forward cfgProd reqProbe f401 dockerHub (by decide) (by decide)
  obtain ⟨-, h2⟩ := c1_upstream401_probe_forward cfgProd reqFwd f401 dockerHub (by decide) (by decide)
  exact ⟨h1 rfl rfl, h2 (by decide) (by decide) (by decide) rfl⟩

/-- C1 counterexample: at the token-exchange stage the upstream probe
returns 401, yet the client receives the relayed token response — a 200
with no WWW-Authenticate header at all — not a 401 pointing at the
proxy's /v2/auth, so the claim fails for the auth stage. -/
theorem c1_auth_stage_counterexample :
    (fAuthTok (authProbeRequest dockerHub)).status = 401
    ∧ (handle cfgProd reqAuthTok fAuthTok).1.status = 200
    ∧ headerGet (handle cfgProd reqAuthTok fAuthTok).1.headers "WWW-Authenticate" = none :=
  ⟨by decide, by decide, by decide⟩

/-! ## Claim C2 -/

/-- C2 (amended): every call of the 401 helper produces status 401, the
JSON body message UNAUTHORIZED, and a WWW-Authenticate header of exactly
the claimed shape, where the host part is the full Host the client used
(port included) in debug mode but the hostname with any port stripped in
every other mode. -/
theorem c2_unauthorized_response_format (cfg : Config) (host : String) :
    responseUnauthorized cfg host =
      { status := 401
      , headers := [("WWW-Authenticate",
          if cfg.mode = "debug" then specUnauthorizedHeader "http" host
          else specUnauthorizedHeader "https" (hostnameOfHost host))]
      , body := Body.jsonMessage "UNAUTHORIZED" } := by
  by_cases hm : cfg.mode = "debug"
  · simp only [responseUnauthorized, wwwAuthHeaderValue, specUnauthorizedHeader, hm, if_true]
    exact congrArg
      (fun s => HttpResponse.mk 401 [("WWW-Authenticate", s)] (Body.jsonMessage "UNAUTHORIZED"))
      (by apply String.ext; simp [String.data_append])
  · simp only [responseUnauthorized, wwwAuthHeaderValue, specUnauthorizedHeader, hm, if_false]
    exact congrArg
      (fun s => HttpResponse.mk 401 [("WWW-Authenticate", s)] (Body.jsonMessage "UNAUTHORIZED"))
      (by apply String.ext; simp [String.data_append])

/-- C2 counterexample: in production mode a client that reached the
proxy at docker.example.com:8080 gets a realm whose host part is
docker.example.com — the port is stripped — while the claim demands the
host the client used, docker.example.com:8080. -/
theorem c2_port_stripped_counterexample :
    (handle cfgProd reqPort f401).1 = responseUnauthorized cfgProd "docker.example.com:8080"
    ∧ headerGet (handle cfgProd reqPort f401).1.headers "WWW-Authenticate" =
        some "Bearer realm=\"https://docker.example.com/v2/auth\",service=\"docker-repository-proxy\""
    ∧ specUnauthorizedHeader "https" "docker.example.com:8080" =
        "Bearer realm=\"https://docker.example.com:8080/v2/auth\",service=\"docker-repository-proxy\""
    ∧ ("Bearer realm=\"https://docker.example.com/v2/auth\",service=\"docker-repository-proxy\"" : String) ≠
        "Bearer realm=\"https://docker.example.com:8080/v2/auth\",service=\"docker-repository-proxy\"" :=
  ⟨by decide, by decide, by decide, by decide⟩

theorem probeStage_snd (cfg : Config) (u : String) (req : Request) (f : FetchReq → FetchResp) :
    (probeStage cfg u req f).2 = [probeRequest u (req.headers "authorization")] := by
  by_cases hst : (f (probeRequest u (req.headers "authorization"))).status = 401 <;>
    simp [probeStage, hst]

/-! ## Claim C4 -/

/-- C4: in the token exchange against the default registry, a scope with
three colon-separated parts whose middle part has no slash is rewritten
by prefixing library/ to the middle part; a scope whose middle part
already contains a slash passes through unchanged; and with a
non-default upstream the rewrite never applies. -/
theorem c4_scope_rewrite :
    (∀ s a b c, jsSplit s ':' = [a, b, c] → containsChar b '/' = false →
        rewriteScope true (some s) = some (a ++ ":library/" ++ b ++ ":" ++ c))
    ∧ (∀ s a b c, jsSplit s ':' = [a, b, c] → containsChar b '/' = true →
        rewriteScope true (some s) = some s)
    ∧ (∀ sc, rewriteScope false sc = sc) := by
  refine ⟨?_, ?_, ?_⟩
  · intro s a b c hsplit hcon
    have hs : s ≠ "" := by
      intro e
      subst e
      simp [jsSplit, splitOnChar] at hsplit
    have hj : joinWith ':' [a, "library/" ++ b, c] = a ++ ":library/" ++ b ++ ":" ++ c := by
      apply String.ext
      simp [joinWith, String.data_append]
    simp [rewriteScope, hsplit, hcon, hs, hj]
  · intro s a b c hsplit hcon
    have hs : s ≠ "" := by
      intro e
      subst e
      simp [jsSplit, splitOnChar] at hsplit
    simp [rewriteScope, hsplit, hcon, hs]
  · intro sc
    rcases sc with _ | s
    · rfl
    · simp [rewriteScope]

theorem c4_scope_rewrite_witness :
    rewriteScope true (some "repository:busybox:pull") = some "repository:library/busybox:pull"
    ∧ rewriteScope true (some "repository:library/busybox:pull") =
        some "repository:library/busybox:pull"
    ∧ rewriteScope false (some "repository:busybox:pull") = some "repository:busybox:pull" := by
  refine ⟨?_, ?_, ?_⟩
  · exact (c4_scope_rewrite.1 "repository:busybox:pull" "repository" "busybox" "pull"
      (by decide) (by decide)).trans (by decide)
  · exact c4_scope_rewrite.2.1 "repository:library/busybox:pull"
      "repository" "library/busybox" "pull" (by decide) (by decide)
  · exact c4_scope_rewrite.2.2 (some "repository:busybox:pull")

/-! ## Claim C5 -/

/-- C5 (amended): challenge parsing extracts, in order, the first two
quoted values each introduced by an equals sign followed by an opening
quote (the regex demands the two characters before a value be those),
assigning the first to realm and the second to service; with fewer than
two such matches parsing fails and the client receives the generic 500
rather than a crash; with at least two matches and a parseable realm
the token request is issued with that realm and service. -/
theorem c5_challenge_parse (cfg : Config) (req : Request) (f : FetchReq → FetchResp)
    (u astr : String)
    (hu : routeByHosts cfg (hostnameOfHost req.host) = u) (hne : u ≠ "")
    (hpath : req.pathname = "/v2/auth")
    (hstat : (f (authProbeRequest u)).status = 401)
    (hget : headerGet (f (authProbeRequest u)).headers "WWW-Authenticate" = some astr) :
    ((jsMatches astr).length < 2 →
        parseAuthenticate astr = none
        ∧ handle cfg req f = (internalServerError, [authProbeRequest u]))
    ∧ (∀ m0 m1 rest, jsMatches astr = m0 :: m1 :: rest →
        parseAuthenticate astr = some (Challenge.mk m0 m1)
        ∧ (urlParseOk m0 = true →
            handle cfg req f =
              (relayResponse (f (tokenRequest (Challenge.mk m0 m1)
                  (rewriteScope (u == dockerHub) req.scope) (req.headers "authorization"))),
               [authProbeRequest u,
                tokenRequest (Challenge.mk m0 m1)
                  (rewriteScope (u == dockerHub) req.scope) (req.headers "authorization")]))) := by
  have hha := handle_eq_authStage cfg req f u hu hne hpath
  constructor
  · intro hlen
    have hpa : parseAuthenticate astr = none := by
      rcases hm : jsMatches astr with _ | ⟨a0, _ | ⟨a1, arest⟩⟩
      · unfold parseAuthenticate
        rw [hm]
      · unfold parseAuthenticate
        rw [hm]
      · rw [hm] at hlen
        simp only [List.length_cons] at hlen
        omega
    refine ⟨hpa, ?_⟩
    rw [hha]
    simp [authStage, hstat, hget, hpa]
  · intro m0 m1 rest hm
    have hpa : parseAuthenticate astr = some (Challenge.mk m0 m1) := by
      unfold parseAuthenticate
      rw [hm]
    refine ⟨hpa, fun hok => ?_⟩
    rw [hha]
    simp [authStage, hstat, hget, hpa, hok]

theorem c5_challenge_parse_witness :
    parseAuthenticate "Bearer xyz" = none
    ∧ (handle cfgProd reqAuthPlain fBadChallenge).1 = internalServerError
    ∧ parseAuthenticate "Bearer realm=\"https://auth.docker.io/token\",service=\"registry.docker.io\"" =
        some (Challenge.mk "https://auth.docker.io/token" "registry.docker.io") := by
  obtain ⟨ha, hb⟩ := (c5_challenge_parse cfgProd reqAuthPlain fBadChallenge dockerHub "Bearer xyz"
    (by decide) (by decide) rfl (by decide) (by decide)).1 (by decide)
  refine ⟨ha, ?_, ?_⟩
  · rw [hb]
  · exact ((c5_challenge_parse cfgProd reqAuthTok fAuthTok dockerHub
      "Bearer realm=\"https://auth.docker.io/token\",service=\"registry.docker.io\""
      (by decide) (by decide) rfl (by decide) (by decide)).2
      "https://auth.docker.io/token" "registry.docker.io" [] (by decide)).1

/-- C5 counterexample: the header value with two double-quoted values a
and b, only the second introduced by an equals sign: by the claim,
parsing succeeds with realm a and service b; the code finds a single
regex match, throws, and the client receives a 500. -/
theorem c5_quoted_values_counterexample :
    quotedValues "Bearer \"a\" realm=\"b\"" = ["a", "b"]
    ∧ jsMatches "Bearer \"a\" realm=\"b\"" = ["b"]
    ∧ parseAuthenticate "Bearer \"a\" realm=\"b\"" = none
    ∧ (handle cfgProd reqAuthPlain fMixedQuotes).1 = internalServerError :=
  ⟨by decide, by decide, by decide, by decide⟩

/-! ## Claim C10 -/

/-- C10 (amended): the /v2/auth discovery probe carries an empty header
map — never the client's Authorization — so the probe request, hence its
response, is identical for any two client requests that differ only in
their headers; the client's Authorization header is forwarded by the
/v2/ probe endpoint, by the token-realm request, and also by the
generic forwarder, which copies all client headers. -/
theorem c10_authorization_flow (cfg : Config) (req : Request) (hh : String → Option String)
    (f : FetchReq → FetchResp) (u : String)
    (hu : routeByHosts cfg (hostnameOfHost req.host) = u) (hne : u ≠ "") :
    (authProbeRequest u).headers = emptyHeaders
    ∧ (req.pathname = "/v2/auth" →
        (handle cfg req f).2.head? = some (authProbeRequest u)
        ∧ (handle cfg { req with headers := hh } f).2.head? = some (authProbeRequest u))
    ∧ (req.pathname = "/v2/" →
        (handle cfg req f).2 = [probeRequest u (req.headers "authorization")]
        ∧ (probeRequest u (req.headers "authorization")).headers "Authorization" =
            truthy (req.headers "authorization"))
    ∧ (∀ ch sc au, (tokenRequest ch sc au).headers "Authorization" = truthy au)
    ∧ (req.pathname ≠ "/v2/" → req.pathname ≠ "/v2/auth" →
        ¬(u = dockerHub ∧ (jsSplit req.pathname '/').length = 5) →
        (handle cfg req f).2 = [forwardRequest u req]
        ∧ (forwardRequest u req).headers "authorization" = req.headers "authorization") := by
  refine ⟨rfl, ?_, ?_, ?_, ?_⟩
  · intro hpath
    constructor
    · rw [handle_eq_authStage cfg req f u hu hne hpath]
      exact authStage_snd_head cfg u req f
    · rw [handle_eq_authStage cfg { req with headers := hh } f u hu hne hpath]
      exact authStage_snd_head cfg u { req with headers := hh } f
  · intro hpath
    refine ⟨?_, rfl⟩
    rw [handle_eq_probeStage cfg req f u hu hne hpath]
    exact probeStage_snd cfg u req f
  · intro ch sc au
    rfl
  · intro hp1 hp2 hnr
    refine ⟨?_, rfl⟩
    rw [handle_eq_forwardStage cfg req f u hu hne hp1 hp2 hnr]
    exact forwardStage_snd cfg u req f

theorem c10_authorization_flow_witness :
    (authProbeRequest dockerHub).headers = emptyHeaders
    ∧ (handle cfgProd reqAuthTok fAuthTok).2.head? = some (authProbeRequest dockerHub)
    ∧ (handle cfgProd reqProbe f401).2 = [probeRequest dockerHub (reqProbe.headers "authorization")]
    ∧ (tokenRequest (Challenge.mk "https://auth.docker.io/token" "registry.docker.io")
        (some "repository:library/busybox:pull") (some "Basic c2VjcmV0")).headers "Authorization" =
        some "Basic c2VjcmV0"
    ∧ (forwardRequest dockerHub reqFwd).headers "authorization" = some "Basic c2VjcmV0" := by
  obtain ⟨h0, h1, -, h3, -⟩ := c10_authorization_flow cfgProd reqAuthTok emptyHeaders fAuthTok
    dockerHub (by decide) (by decide)
  obtain ⟨-, -, h2, -, -⟩ := c10_authorization_flow cfgProd reqProbe emptyHeaders f401
    dockerHub (by decide) (by decide)
  obtain ⟨-, -, -, -, h4⟩ := c10_authorization_flow cfgProd reqFwd emptyHeaders fOk
    dockerHub (by decide) (by decide)
  refine ⟨h0, (h1 rfl).1, (h2 rfl).1, ?_, ?_⟩
  · exact (h3 (Challenge.mk "https://auth.docker.io/token" "registry.docker.io")
      (some "repository:library/busybox:pull") (some "Basic c2VjcmV0")).trans (by decide)
  · exact ((h4 (by decide) (by decide) (by decide)).2).trans (by decide)

/-- C10 counterexample: a generic-forwarder upstream request — neither
the /v2/ probe nor a token-realm request, as its URL shows — carries the
client's Authorization header, refuting the claim that only the probe
endpoint and the token-realm request forward it. -/
theorem c10_forwarder_auth_counterexample :
    (handle cfgProd reqFwd fOk).2 = [forwardRequest dockerHub reqFwd]
    ∧ (forwardRequest dockerHub reqFwd).url =
        "https://registry-1.docker.io/v2/library/busybox/blobs/sha256-aa"
    ∧ (forwardRequest dockerHub reqFwd).url ≠ (authProbeRequest dockerHub).url
    ∧ (forwardRequest dockerHub reqFwd).headers "authorization" = some "Basic c2VjcmV0" := by
  refine ⟨?_, by decide, by decide, by decide⟩
  rw [handle_eq_forwardStage cfgProd reqFwd fOk dockerHub (by decide) (by decide) (by decide)
    (by decide) (by decide)]
  exact forwardStage_snd cfgProd dockerHub reqFwd fOk

end DockerProxy
